import Mathlib

/-!
Verification development for the automation_fws repository: a shallow
embedding of the Cypress primaryButton component, the uncaught-exception
handler of the Cypress specs, and the PyPom-like locator / page /
page-section design described in the repository documentation.
-/

namespace AutomationFws

/-! ### Cypress primaryButton component
Embedded from src/cypress/cypress/components/primaryButton.js.
Each method of the class is modelled as the finite list of Cypress chain
commands it issues, paired with the object state after the call (the
method bodies never assign to this.locator, so the state is returned
unchanged). -/

/-- A command in a Cypress chain, as issued by the primaryButton methods. -/
inductive CyCommand where
  | getIframeBody : CyCommand
  | find : String → Nat → CyCommand
  | shouldBeVisible : CyCommand
  | shouldBeDisabled : CyCommand
  | shouldBeEnabled : CyCommand
  | triggerMouseover : CyCommand
  | click : CyCommand
deriving DecidableEq, Repr

/-- The primaryButton class: its constructor stores the locator string. -/
structure primaryButton where
  locator : String
deriving DecidableEq, Repr

/-- hover: cy.getIframeBody().find(this.locator, 15000 timeout).should(be.visible).trigger(mouseover). -/
def primaryButton.hover (b : primaryButton) : List CyCommand × primaryButton :=
  ([.getIframeBody, .find b.locator 15000, .shouldBeVisible, .triggerMouseover], b)

/-- disabled: cy.getIframeBody().find(this.locator, 15000 timeout).should(be.disabled). -/
def primaryButton.disabled (b : primaryButton) : List CyCommand × primaryButton :=
  ([.getIframeBody, .find b.locator 15000, .shouldBeDisabled], b)

/-- enabled: cy.getIframeBody().find(this.locator, 15000 timeout).should(be.enabled). -/
def primaryButton.enabled (b : primaryButton) : List CyCommand × primaryButton :=
  ([.getIframeBody, .find b.locator 15000, .shouldBeEnabled], b)

/-- click: cy.getIframeBody().find(this.locator, 15000 timeout).should(be.visible).click(). -/
def primaryButton.click (b : primaryButton) : List CyCommand × primaryButton :=
  ([.getIframeBody, .find b.locator 15000, .shouldBeVisible, .click], b)

/-- The four public operations of primaryButton. -/
inductive ButtonOp where
  | hover : ButtonOp
  | disabled : ButtonOp
  | enabled : ButtonOp
  | click : ButtonOp
deriving DecidableEq, Repr

/-- Dispatch an operation on a primaryButton instance. -/
def primaryButton.run (b : primaryButton) : ButtonOp → List CyCommand × primaryButton
  | .hover => b.hover
  | .disabled => b.disabled
  | .enabled => b.enabled
  | .click => b.click

/-- Run a sequence of operations, threading the object state. -/
def runOps (b : primaryButton) : List ButtonOp → primaryButton
  | [] => b
  | op :: ops => runOps (b.run op).2 ops

/-- Commands that act on, or assert a state of, the located element. -/
def CyCommand.isInteraction : CyCommand → Bool
  | .triggerMouseover => true
  | .click => true
  | .shouldBeDisabled => true
  | .shouldBeEnabled => true
  | _ => false

/-- Every interaction command in the list is preceded by a visibility wait;
the flag records whether a shouldBeVisible has been seen so far. -/
def visibleWaitPrecedes (seen : Bool) : List CyCommand → Bool
  | [] => true
  | CyCommand.shouldBeVisible :: rest => visibleWaitPrecedes true rest
  | c :: rest => (!(c.isInteraction) || seen) && visibleWaitPrecedes seen rest

/-! ### Uncaught-exception handler of the Cypress specs
Embedded from src/cypress/cypress/e2e/autocomplete.cy.js and
primarybutton.cy.js. The JavaScript regular expression
/^[^(ResizeObserver loop limit exceeded)]/ is an anchor followed by one
NEGATED CHARACTER CLASS: it matches a string iff the string is nonempty
and its first character is not one of the characters occurring in the
bracketed text. -/

/-- The characters of the (mis)used character class in the regex literal. -/
def resizeObserverClassChars : List Char :=
  "(ResizeObserver loop limit exceeded)".toList

/-- resizeObserverLoopErrRe.test(s) for the regex above: true iff s has a
first character and that character is outside the character class. -/
def resizeObserverLoopErrReTest (s : String) : Bool :=
  match s.toList with
  | [] => false
  | c :: _ => !(resizeObserverClassChars.contains c)

/-- The handler registered with Cypress.on uncaught:exception: returns
false (suppressing the failure) when the regex matches the error message,
and otherwise falls off the end of the function, returning undefined
(modelled as none). -/
def uncaughtExceptionHandler (errMessage : String) : Option Bool :=
  if resizeObserverLoopErrReTest errMessage then some false else none

/-! ### PyPom-like locator / page / page-section core
The implementation of this library is not present in the repository; only
its README documentation is. The definitions below are therefore modelled
from the spec (sections 3, 4, 6, 7, 8 of the specification and the PyPom
README shipped with the repository). -/

/-- Modelled from the spec: the locator strategy enum of the missing PyPom
library (spec section 3). -/
inductive Strategy where
  | ID : Strategy
  | NAME : Strategy
  | CSS : Strategy
  | CLASS : Strategy
  | TAG : Strategy
  | XPATH : Strategy
  | LINK_TEXT : Strategy
  | PARTIAL_LINK_TEXT : Strategy
deriving DecidableEq, Repr

/-- Modelled from the spec: a Locator of the missing PyPom library is an
immutable pair of a strategy and a raw selector value (spec section 4.1). -/
structure Locator where
  strategy : Strategy
  value : String
deriving DecidableEq, Repr

/-- Modelled from the spec: CSS, ID, NAME, CLASS, TAG map directly to a
CSS selector fragment; XPATH, LINK_TEXT, PARTIAL_LINK_TEXT do not. -/
def cssConvertible : Strategy → Bool
  | .ID => true
  | .NAME => true
  | .CSS => true
  | .CLASS => true
  | .TAG => true
  | .XPATH => false
  | .LINK_TEXT => false
  | .PARTIAL_LINK_TEXT => false

/-- Modelled from the spec: CSS fragment for a CSS-convertible locator,
following the encoding of spec section 6 (hash-id, [name=value], dot-class,
bare tag, raw css). For the non-convertible strategies the value passes
through unmodified and is never used by combine. -/
def toCss (l : Locator) : String :=
  match l.strategy with
  | .ID => "#" ++ l.value
  | .NAME => "[name=" ++ l.value ++ "]"
  | .CSS => l.value
  | .CLASS => "." ++ l.value
  | .TAG => l.value
  | .XPATH => l.value
  | .LINK_TEXT => l.value
  | .PARTIAL_LINK_TEXT => l.value

/-- Modelled from the spec: the lowercase strategy name read back from a
Locator (the README reads ByID(...).by as the string id). -/
def strategyName : Strategy → String
  | .ID => "id"
  | .NAME => "name"
  | .CSS => "css"
  | .CLASS => "class"
  | .TAG => "tag"
  | .XPATH => "xpath"
  | .LINK_TEXT => "link text"
  | .PARTIAL_LINK_TEXT => "partial link text"

/-- Modelled from the spec: the readiness conditions of the auto-wait
layer (spec section 4.2). -/
inductive WaitCondition where
  | EXISTS : WaitCondition
  | VISIBLE : WaitCondition
deriving DecidableEq, Repr

/-- Modelled from the spec: the error taxonomy of the missing PyPom
library (spec section 7). -/
inductive PomError where
  | unsupportedCombination : PomError
  | unresolvedRoot : PomError
  | timeoutError : Locator → WaitCondition → PomError
  | navigationError : PomError
deriving DecidableEq, Repr

/-- Modelled from the spec: the locator constructors listed in the README. -/
def ByID (v : String) : Locator := ⟨.ID, v⟩

/-- By-name locator constructor. -/
def ByName (v : String) : Locator := ⟨.NAME, v⟩

/-- By-css locator constructor. -/
def ByCss (v : String) : Locator := ⟨.CSS, v⟩

/-- By-class locator constructor. -/
def ByClass (v : String) : Locator := ⟨.CLASS, v⟩

/-- By-tag locator constructor. -/
def ByTag (v : String) : Locator := ⟨.TAG, v⟩

/-- By-xpath locator constructor. -/
def ByXPath (v : String) : Locator := ⟨.XPATH, v⟩

/-- By-link-text locator constructor. -/
def ByLinkText (v : String) : Locator := ⟨.LINK_TEXT, v⟩

/-- By-partial-link-text locator constructor. -/
def ByPartialLinkText (v : String) : Locator := ⟨.PARTIAL_LINK_TEXT, v⟩

/-- Modelled from the spec: combine(self, other) of the missing PyPom
library. If both operands are CSS-convertible the result is a CSS Locator
whose value is toCss(self) then a space then toCss(other); otherwise the
combination fails with UnsupportedCombinationError (spec section 4.1). -/
def combine (self other : Locator) : Except PomError Locator :=
  if cssConvertible self.strategy && cssConvertible other.strategy then
    .ok ⟨.CSS, toCss self ++ " " ++ toCss other⟩
  else
    .error .unsupportedCombination

/-- Modelled from the spec: one hex digit, uppercase, for percent-encoding. -/
def hexDigitChar (n : Nat) : Char :=
  if n < 10 then Char.ofNat (n + 48) else Char.ofNat (n + 55)

/-- Modelled from the spec: a percent-escaped byte, as in standard URL
percent-encoding (spec section 6). -/
def percentByte (n : Nat) : String :=
  "%" ++ String.singleton (hexDigitChar (n / 16 % 16)) ++ String.singleton (hexDigitChar (n % 16))

/-- UTF-8 bytes of a character, as natural numbers. -/
def utf8Bytes (c : Char) : List Nat :=
  let n := c.toNat
  if n < 128 then [n]
  else if n < 2048 then [192 + n / 64, 128 + n % 64]
  else if n < 65536 then [224 + n / 4096, 128 + n / 64 % 64, 128 + n % 64]
  else [240 + n / 262144, 128 + n / 4096 % 64, 128 + n / 64 % 64, 128 + n % 64]

/-- Characters left unescaped by standard percent-encoding. -/
def isUnreservedChar (c : Char) : Bool :=
  c.isAlphanum || c = '-' || c = '_' || c = '.' || c = '~'

/-- Modelled from the spec: standard percent-encoding of a query-parameter
value (spec section 6). -/
def percentEncode (s : String) : String :=
  s.toList.foldl
    (fun acc c =>
      acc ++ (if isUnreservedChar c then String.singleton c
              else String.join ((utf8Bytes c).map percentByte)))
    ""

/-- Modelled from the spec: the query string built by Page.open — each
parameter rendered as key, equals sign, percent-encoded value, joined with
ampersands in the insertion order of the mapping (spec section 4.3). -/
def queryString (params : List (String × String)) : String :=
  String.intercalate "&" (params.map fun p => p.1 ++ "=" ++ percentEncode p.2)

/-- Modelled from the spec: the URL that Page.open of the missing PyPom
library instructs the driver session to navigate to — the given path with
the encoded query string appended after a question mark when parameters
are supplied (spec section 4.3). -/
def Page.open (path : String) (params : List (String × String)) : String :=
  match params with
  | [] => path
  | _ => path ++ "?" ++ queryString params

/-- Modelled from the spec: root determination for a PageSection of the
missing PyPom library — a dynamically supplied root always takes
precedence over a statically declared one, and with neither the section
fails with UnresolvedRootError (spec section 4.4). -/
def resolveRoot (staticRoot dynamicRoot : Option Locator) : Except PomError Locator :=
  match dynamicRoot with
  | some r => .ok r
  | none =>
    match staticRoot with
    | some r => .ok r
    | none => .error .unresolvedRoot

/-- How a child locator of a section is looked up after resolution:
restricted to descendants of the root, or against the whole document. -/
inductive ResolvedLookup where
  | rootScoped : Locator → ResolvedLookup
  | wholeDocument : Locator → ResolvedLookup
deriving DecidableEq, Repr

/-- Modelled from the spec: resolution of a child locator of a PageSection
of the missing PyPom library — a CSS-convertible child is combined with
the root via combine, while an XPATH, LINK_TEXT or PARTIAL_LINK_TEXT child
is evaluated against the whole document, ignoring the root scope (spec
section 4.4). -/
def resolveChild (root child : Locator) : Except PomError ResolvedLookup :=
  if cssConvertible child.strategy then
    (combine root child).map ResolvedLookup.rootScoped
  else
    .ok (ResolvedLookup.wholeDocument child)

/-- Modelled from the spec: full resolution of a child locator on a section
built from a static and an optional dynamic root. -/
def sectionResolve (staticRoot dynamicRoot : Option Locator) (child : Locator) :
    Except PomError ResolvedLookup :=
  match resolveRoot staticRoot dynamicRoot with
  | .error e => .error e
  | .ok root => resolveChild root child

/-- Modelled from the spec: the observable state of a UI element at one
polling tick of the driver (spec section 4.2). -/
structure ElementState where
  present : Bool
  visible : Bool
deriving DecidableEq, Repr

/-- Modelled from the spec: whether an element state satisfies a readiness
condition — existence, or visibility (which requires presence). -/
def satisfiesCond (cond : WaitCondition) (st : ElementState) : Bool :=
  match cond with
  | .EXISTS => st.present
  | .VISIBLE => st.present && st.visible

/-- Modelled from the spec: cooperative polling of the missing auto-wait
layer — poll the world from a start tick for the given number of ticks,
returning the first tick at which the condition holds, or a TimeoutError
carrying the locator and condition attempted (spec section 4.2). -/
def waitFrom (world : Nat → ElementState) (loc : Locator) (cond : WaitCondition) :
    Nat → Nat → Except PomError Nat
  | _, 0 => .error (.timeoutError loc cond)
  | start, fuel + 1 =>
    if satisfiesCond cond (world start) then .ok start
    else waitFrom world loc cond (start + 1) fuel

/-- Modelled from the spec: wait until the condition holds, polling ticks
0 up to and including the timeout. -/
def waitUntil (world : Nat → ElementState) (loc : Locator) (cond : WaitCondition)
    (timeout : Nat) : Except PomError Nat :=
  waitFrom world loc cond 0 (timeout + 1)

/-- An interaction the driver performs on an element, stamped with the
tick at which it happens. -/
inductive DriverAction where
  | click : Locator → Nat → DriverAction
deriving DecidableEq, Repr

/-- Modelled from the spec: an interaction on an element of the missing
PyPom library — implicitly wait for the default VISIBLE condition, then
perform the interaction; on timeout fail with the TimeoutError and perform
no interaction at all (spec sections 4.2 and 7). The second component is
the list of driver actions performed. -/
def clickElement (world : Nat → ElementState) (loc : Locator) (timeout : Nat) :
    Except PomError Unit × List DriverAction :=
  match waitUntil world loc .VISIBLE timeout with
  | .error e => (.error e, [])
  | .ok t => (.ok (), [DriverAction.click loc t])

/-! ### Theorems -/

/-- C1: for every pair of Locators a and b whose strategies are both
CSS-convertible, combine a b returns a new Locator with strategy CSS and
value toCss a, a space, toCss b; in particular ByID of some-form combined
with ByName of user_input yields the CSS locator whose value is
"#some-form [name=user_input]". -/
theorem combine_cssConvertible_pair :
    (∀ a b : Locator, cssConvertible a.strategy = true → cssConvertible b.strategy = true →
      combine a b = Except.ok ⟨Strategy.CSS, toCss a ++ " " ++ toCss b⟩) ∧
    combine (ByID "some-form") (ByName "user_input") =
      Except.ok (ByCss "#some-form [name=user_input]") := by
  refine ⟨?_, by rfl⟩
  intro a b ha hb
  simp [combine, ha, hb]

/-- Witness for combine_cssConvertible_pair at a concrete pair. -/
theorem combine_cssConvertible_pair_witness :
    combine (ByClass "btn") (ByTag "span") =
      Except.ok ⟨Strategy.CSS, toCss (ByClass "btn") ++ " " ++ toCss (ByTag "span")⟩ :=
  combine_cssConvertible_pair.1 (ByClass "btn") (ByTag "span") rfl rfl

/-- C4: for every pair of Locators where at least one strategy is XPATH,
LINK_TEXT or PARTIAL_LINK_TEXT, combine fails with
UnsupportedCombinationError and never returns a Locator value. -/
theorem combine_unsupported :
    ∀ a b : Locator,
      (a.strategy = Strategy.XPATH ∨ a.strategy = Strategy.LINK_TEXT ∨
        a.strategy = Strategy.PARTIAL_LINK_TEXT ∨
        b.strategy = Strategy.XPATH ∨ b.strategy = Strategy.LINK_TEXT ∨
        b.strategy = Strategy.PARTIAL_LINK_TEXT) →
      combine a b = Except.error PomError.unsupportedCombination := by
  intro a b h
  rcases h with h | h | h | h | h | h <;> simp [combine, h, cssConvertible]

/-- Witness for combine_unsupported at a concrete pair with an XPATH side. -/
theorem combine_unsupported_witness :
    combine (ByXPath "//form") (ByName "user_input") =
      Except.error PomError.unsupportedCombination :=
  combine_unsupported (ByXPath "//form") (ByName "user_input") (Or.inl rfl)

/-- C8: a Locator constructed from a strategy and value reads back exactly
those fields with no normalization; in particular a CSS locator with value
"#x" round-trips to exactly those values, and ByID of some-form reads back
the strategy name id and the value some-form. -/
theorem locator_roundtrip :
    (∀ (s : Strategy) (v : String),
      (Locator.mk s v).strategy = s ∧ (Locator.mk s v).value = v) ∧
    (Locator.mk Strategy.CSS "#x").strategy = Strategy.CSS ∧
    (Locator.mk Strategy.CSS "#x").value = "#x" ∧
    strategyName (ByID "some-form").strategy = "id" ∧
    (ByID "some-form").value = "some-form" :=
  ⟨fun _ _ => ⟨rfl, rfl⟩, rfl, rfl, rfl, rfl⟩

/-- C3: Page.open percent-encodes each parameter value and appends the
parameters as a query string in the insertion order of the mapping; in
particular opening search with q mapped to "a b" and l mapped to "ny"
navigates to "search?q=a%20b&l=ny". -/
theorem page_open_query_encoding :
    Page.open "search" [("q", "a b"), ("l", "ny")] = "search?q=a%20b&l=ny" ∧
    ∀ (path : String) (params : List (String × String)), params ≠ [] →
      Page.open path params =
        path ++ "?" ++
          String.intercalate "&" (params.map fun p => p.1 ++ "=" ++ percentEncode p.2) := by
  refine ⟨by decide, ?_⟩
  intro path params hne
  match params with
  | [] => exact absurd rfl hne
  | p :: ps => rfl

/-- Witness for page_open_query_encoding with a nonempty parameter list. -/
theorem page_open_query_encoding_witness :
    Page.open "jobs" [("q", "qa engineer")] =
      "jobs" ++ "?" ++
        String.intercalate "&"
          ([("q", "qa engineer")].map fun p => p.1 ++ "=" ++ percentEncode p.2) :=
  page_open_query_encoding.2 "jobs" [("q", "qa engineer")] (List.cons_ne_nil _ _)

/-- C5: a dynamically supplied root always takes precedence over the
statically declared root, and every CSS-convertible child locator resolves
as a descendant of the dynamic root, independently of the static one; in
particular a section with static root ByID of top-nav constructed with
dynamic root ByID of other-nav resolves the child ByTag of input under
other-nav. -/
theorem section_dynamic_root_precedence :
    (∀ staticR dynR child : Locator,
      cssConvertible dynR.strategy = true → cssConvertible child.strategy = true →
      sectionResolve (some staticR) (some dynR) child =
        Except.ok (ResolvedLookup.rootScoped
          ⟨Strategy.CSS, toCss dynR ++ " " ++ toCss child⟩)) ∧
    sectionResolve (some (ByID "top-nav")) (some (ByID "other-nav")) (ByTag "input") =
      Except.ok (ResolvedLookup.rootScoped (ByCss "#other-nav input")) := by
  refine ⟨?_, by rfl⟩
  intro staticR dynR child hd hc
  simp [sectionResolve, resolveRoot, resolveChild, combine, hd, hc, Except.map]

/-- Witness for section_dynamic_root_precedence at concrete roots. -/
theorem section_dynamic_root_precedence_witness :
    sectionResolve (some (ByID "top-nav")) (some (ByID "side-nav")) (ByTag "p") =
      Except.ok (ResolvedLookup.rootScoped
        ⟨Strategy.CSS, toCss (ByID "side-nav") ++ " " ++ toCss (ByTag "p")⟩) :=
  section_dynamic_root_precedence.1 (ByID "top-nav") (ByID "side-nav") (ByTag "p") rfl rfl

/-- C6: at resolution time a CSS-convertible child locator of a section is
combined with the resolved root via combine, while an XPATH, LINK_TEXT or
PARTIAL_LINK_TEXT child is evaluated against the whole document, ignoring
the root scope. -/
theorem section_child_scoping :
    ∀ root child : Locator,
      (cssConvertible child.strategy = true →
        resolveChild root child = (combine root child).map ResolvedLookup.rootScoped) ∧
      ((child.strategy = Strategy.XPATH ∨ child.strategy = Strategy.LINK_TEXT ∨
          child.strategy = Strategy.PARTIAL_LINK_TEXT) →
        resolveChild root child = Except.ok (ResolvedLookup.wholeDocument child)) := by
  intro root child
  constructor
  · intro h
    simp [resolveChild, h]
  · intro h
    have hc : cssConvertible child.strategy = false := by
      rcases h with h | h | h <;> simp [cssConvertible, h]
    simp [resolveChild, hc]

/-- Witness for section_child_scoping at a concrete XPATH child. -/
theorem section_child_scoping_witness :
    resolveChild (ByID "top-nav") (ByXPath "//input") =
      Except.ok (ResolvedLookup.wholeDocument (ByXPath "//input")) :=
  (section_child_scoping (ByID "top-nav") (ByXPath "//input")).2 (Or.inl rfl)

/-- If the condition fails at every polled tick, waitFrom reports the
TimeoutError carrying the locator and condition. -/
theorem waitFrom_all_fail (world : Nat → ElementState) (loc : Locator) (cond : WaitCondition) :
    ∀ fuel start : Nat,
      (∀ t, start ≤ t → t < start + fuel → satisfiesCond cond (world t) = false) →
      waitFrom world loc cond start fuel = Except.error (PomError.timeoutError loc cond) := by
  intro fuel
  induction fuel with
  | zero => intro start _; rfl
  | succ n ih =>
    intro start h
    have h0 : satisfiesCond cond (world start) = false := h start le_rfl (by omega)
    have step : waitFrom world loc cond start (n + 1) =
        if satisfiesCond cond (world start) then Except.ok start
        else waitFrom world loc cond (start + 1) n := rfl
    rw [step, h0]
    simp only [Bool.false_eq_true, if_false]
    exact ih (start + 1) fun t ht1 ht2 => h t (by omega) (by omega)

/-- C7: when the VISIBLE condition never holds within the timeout, the
element interaction fails with a TimeoutError carrying the locator and the
condition attempted, and no driver action is performed. -/
theorem interaction_timeout_no_action :
    ∀ (world : Nat → ElementState) (loc : Locator) (timeout : Nat),
      (∀ t, t ≤ timeout → satisfiesCond WaitCondition.VISIBLE (world t) = false) →
      clickElement world loc timeout =
        (Except.error (PomError.timeoutError loc WaitCondition.VISIBLE), []) := by
  intro world loc timeout h
  have hw : waitUntil world loc WaitCondition.VISIBLE timeout =
      Except.error (PomError.timeoutError loc WaitCondition.VISIBLE) :=
    waitFrom_all_fail world loc WaitCondition.VISIBLE (timeout + 1) 0
      (fun t _ ht2 => h t (by omega))
  simp [clickElement, hw]

/-- Witness for interaction_timeout_no_action with a never-visible element. -/
theorem interaction_timeout_no_action_witness :
    clickElement (fun _ => ⟨false, false⟩) (ByID "submit") 3 =
      (Except.error (PomError.timeoutError (ByID "submit") WaitCondition.VISIBLE), []) :=
  interaction_timeout_no_action (fun _ => ⟨false, false⟩) (ByID "submit") 3 fun _ _ => rfl

/-- C2 as stated fails on the code: the disabled state check of
primaryButton issues no visibility wait before its assertion on the
element, at the concrete locator used by the primarybutton spec. -/
theorem interaction_visible_wait_counterexample :
    visibleWaitPrecedes false
      ((primaryButton.mk "#story--coderfull-button--primary-inner button:nth-child(2)").run
        ButtonOp.disabled).1 = false := by
  rfl

/-- C2 amended: for every primaryButton, hover and click wait for the
element to be visible before interacting, while the disabled and enabled
state checks assert their state with no preceding visibility wait. -/
theorem interaction_visible_wait_amended :
    ∀ b : primaryButton,
      visibleWaitPrecedes false (b.run ButtonOp.hover).1 = true ∧
      visibleWaitPrecedes false (b.run ButtonOp.click).1 = true ∧
      visibleWaitPrecedes false (b.run ButtonOp.disabled).1 = false ∧
      visibleWaitPrecedes false (b.run ButtonOp.enabled).1 = false :=
  fun _ => ⟨rfl, rfl, rfl, rfl⟩

/-- C9: the uncaught-exception handler returns false exactly when the
error message has a first character outside the character class spelled by
the bracketed regex text, and returns undefined when the first character
is inside that set; hence it suppresses most uncaught exceptions, such as
a TypeError, but not a message starting with R such as the ResizeObserver
message itself. -/
theorem uncaught_exception_handler_behavior :
    (∀ (msg : String) (c : Char) (rest : List Char), msg.toList = c :: rest →
      (uncaughtExceptionHandler msg = some false ↔
        resizeObserverClassChars.contains c = false) ∧
      (resizeObserverClassChars.contains c = true →
        uncaughtExceptionHandler msg = none)) ∧
    uncaughtExceptionHandler "ResizeObserver loop limit exceeded" = none ∧
    uncaughtExceptionHandler "TypeError: undefined is not a function" = some false := by
  refine ⟨?_, by decide, by decide⟩
  intro msg c rest h
  have htest : resizeObserverLoopErrReTest msg = !(resizeObserverClassChars.contains c) := by
    unfold resizeObserverLoopErrReTest
    rw [h]
  have hhandler : uncaughtExceptionHandler msg =
      if resizeObserverClassChars.contains c then none else some false := by
    unfold uncaughtExceptionHandler
    rw [htest]
    cases resizeObserverClassChars.contains c <;> rfl
  constructor
  · rw [hhandler]
    cases resizeObserverClassChars.contains c with
    | false => simp
    | true => simp
  · intro hc
    rw [hhandler, hc]
    rfl

/-- Witness for uncaught_exception_handler_behavior at a concrete message. -/
theorem uncaught_exception_handler_behavior_witness :
    uncaughtExceptionHandler "Uncaught error" = some false :=
  ((uncaught_exception_handler_behavior.1 "Uncaught error" 'U' "ncaught error".toList
      (by decide)).1).mpr (by decide)

/-- Each primaryButton operation returns the object state unchanged. -/
theorem run_state_eq (b : primaryButton) (op : ButtonOp) : (b.run op).2 = b := by
  cases op <;> rfl

/-- C10: every primaryButton operation looks the element up inside the
iframe body using exactly the stored locator string and a fixed 15000 ms
timeout, and no operation, nor any sequence of operations, changes the
stored locator. -/
theorem primaryButton_locator_invariant :
    ∀ b : primaryButton,
      (∀ op : ButtonOp,
        (b.run op).2 = b ∧
        CyCommand.getIframeBody ∈ (b.run op).1 ∧
        CyCommand.find b.locator 15000 ∈ (b.run op).1 ∧
        ∀ s n, CyCommand.find s n ∈ (b.run op).1 → s = b.locator ∧ n = 15000) ∧
      ∀ ops : List ButtonOp, runOps b ops = b := by
  intro b
  constructor
  · intro op
    cases op <;>
      exact ⟨rfl,
        by simp [primaryButton.run, primaryButton.hover, primaryButton.disabled,
          primaryButton.enabled, primaryButton.click],
        by simp [primaryButton.run, primaryButton.hover, primaryButton.disabled,
          primaryButton.enabled, primaryButton.click],
        fun s n hmem => by
          simp [primaryButton.run, primaryButton.hover, primaryButton.disabled,
            primaryButton.enabled, primaryButton.click] at hmem
          exact ⟨hmem.1, hmem.2⟩⟩
  · intro ops
    induction ops with
    | nil => rfl
    | cons op ops ih =>
      show runOps (b.run op).2 ops = b
      rw [run_state_eq]
      exact ih

end AutomationFws
